import Mathlib

/-!
Shallow embedding of the luminance-aura filter of
`white-luminance-greyscale-color-inverter.py` (function
`process_image_with_aura`, lines 36-70, and `batch_process_input_folder`,
lines 73-101).

Modelling conventions:
* A decoded image is a grid of RGB pixels with natural-number channel
  values (uint8 range 0-255 in practice).
* The float64 luminance dot product `np.dot(inverted, [0.299, 0.587, 0.114])`
  followed by `astype("uint8")` is modelled as the exact rational dot product
  followed by floor, i.e. `(299*r + 587*g + 114*b) / 1000` in natural-number
  division.
* The two external numeric primitives the source delegates to are passed as
  parameters: `Resample` stands for PIL's LANCZOS resampling (pixel content
  only; the thumbnail geometry is modelled explicitly) and `Blur` stands for
  `scipy.ndimage.gaussian_filter`.  Since `sigma` itself is irrational
  (`max(0.5, aura * sqrt(H*W/220^2) * 0.2)`), the blur parameter receives the
  rational value `sigma^2`, which determines `sigma` uniquely on nonnegative
  reals.
* `glow.astype("uint8")` is a C float-to-uint8 conversion: truncation toward
  zero, wrapping modulo 256 (the actual blur values lie in [0,1], where this
  is plain truncation).
-/

namespace AuraFilter

/-- One RGB pixel; channel values are uint8 contents (0-255). -/
structure Px where
  r : ℕ
  g : ℕ
  b : ℕ
deriving DecidableEq

/-- PIL image mode tag (the source only branches on whether it is RGB). -/
inductive Mode where
  | RGB
  | L
  | P
  | RGBA
deriving DecidableEq

/-- A decoded PIL image: dimensions, mode, and its RGB rendering (for a
non-RGB mode, `rgb` is the pixel grid that PIL's `convert("RGB")` would
produce; for an RGB image it is the pixel grid itself). -/
structure PILImage where
  width : ℕ
  height : ℕ
  mode : Mode
  rgb : ℕ → ℕ → Px

/-- Output image produced by the filter (RGB triples per pixel). -/
structure Img3 where
  width : ℕ
  height : ℕ
  px : ℕ → ℕ → ℕ × ℕ × ℕ

/-- External resampling primitive (PIL LANCZOS content): old pixels, old
dimensions, new dimensions, new pixel grid. -/
def Resample : Type := (ℕ → ℕ → Px) → ℕ × ℕ → ℕ × ℕ → ℕ → ℕ → Px

/-- External Gaussian-blur primitive (`scipy.ndimage.gaussian_filter`):
mask grid, sigma squared, blurred grid. -/
def Blur : Type := (ℕ → ℕ → ℚ) → ℚ → ℕ → ℕ → ℚ

/-- Channel inversion `255 - v` (line 50; uint8 inputs never wrap). -/
def invert (v : ℕ) : ℕ := 255 - v

/-- Pixel inversion, applied channel-wise (line 50). -/
def invertPx (p : Px) : Px := ⟨invert p.r, invert p.g, invert p.b⟩

/-- Luminance `np.dot(px, [0.299, 0.587, 0.114]).astype("uint8")` (line 53),
modelled as the exact rational dot product truncated to an integer. -/
def grayVal (p : Px) : ℕ := (299 * p.r + 587 * p.g + 114 * p.b) / 1000

/-- Number of entries of the `h × w` grid `gray` strictly above `thr`:
`len(np.where(gray_arr > white_threshold)[0])` (lines 55-56). -/
def countBright (w h : ℕ) (gray : ℕ → ℕ → ℕ) (thr : ℕ) : ℕ :=
  ((List.range h).map
    (fun i => ((List.range w).filter (fun j => decide (thr < gray i j))).length)).sum

/-- C-style float-to-uint8 conversion used by `glow.astype("uint8")`
(line 64): truncation toward zero, modulo 256. -/
def toU8 (q : ℚ) : ℕ := (Int.toNat ⌊q⌋) % 256

/-- Square of `sigma = max(0.5, aura_size * sqrt(h*w / (220*220)) * 0.2)`
(lines 61-62); passed to the abstract blur since `sigma` is irrational. -/
def sigmaSq (aura : ℚ) (h w : ℕ) : ℚ :=
  max (1 / 4) (aura ^ 2 * (((h * w : ℕ) : ℚ) / (220 * 220)) * (1 / 25))

/-- Modelled from the spec: PIL's `thumbnail((2000, 2000))` geometry for the
shorter side (PIL itself is outside the repository) — the longer side is
mapped to 2000 and the shorter side scaled by the same ratio, rounded to the
nearest integer and kept at least 1. -/
def thumbShort (shortSide longSide : ℕ) : ℕ :=
  max 1 ((shortSide * 2000 + longSide / 2) / longSide)

/-- Dimensions after the downscale guard of lines 41-43: unchanged when the
longer side is at most 2000, otherwise the longer side becomes 2000 and the
shorter side is scaled preserving aspect ratio. -/
def thumbDims (w h : ℕ) : ℕ × ℕ :=
  if 2000 < max w h then
    if h ≤ w then (2000, thumbShort h w) else (thumbShort w h, 2000)
  else (w, h)

/-- The downscale guard `img.thumbnail((2000, 2000), LANCZOS)` (lines 41-43):
geometry from `thumbDims`, pixel content from the resampling primitive. -/
def thumbnail (resample : Resample) (img : PILImage) : PILImage :=
  if 2000 < max img.width img.height then
    { width := (thumbDims img.width img.height).1
      height := (thumbDims img.width img.height).2
      mode := img.mode
      rgb := resample img.rgb (img.width, img.height) (thumbDims img.width img.height) }
  else img

/-- The mode conversion `img.convert("RGB")` (line 46): by the representation
convention of `PILImage`, the RGB rendering is already stored in `rgb`, so
conversion only changes the mode tag. -/
def convertRGB (img : PILImage) : PILImage := { img with mode := Mode.RGB }

/-- Working image of the filter: downscale guard (lines 41-43) then
conversion to RGB when the mode is not RGB (lines 45-46). -/
def toWorking (resample : Resample) (img : PILImage) : PILImage :=
  let t := thumbnail resample img
  if t.mode ≠ Mode.RGB then convertRGB t else t

/-- Inverted-then-greyscale luminance grid of an image (lines 49-53). -/
def grayOf (img : PILImage) : ℕ → ℕ → ℕ :=
  fun i j => grayVal (invertPx (img.rgb i j))

/-- Glow field `gaussian_filter(mask, sigma=sigma) * 255` (lines 60-63): the
bright mask `(gray_arr > white_threshold).astype(float)` blurred by the
external primitive and scaled by 255. -/
def glowGrid (blur : Blur) (work : PILImage) (aura : ℚ) (thr : ℕ) : ℕ → ℕ → ℚ :=
  fun i j =>
    blur (fun a b => if thr < grayOf work a b then 1 else 0)
      (sigmaSq aura work.height work.width) i j * 255

/-- Pipeline of lines 49-70 on the already downscaled and converted working
image: invert, greyscale, bright count, optional glow composite, and the
stack into three identical channels. -/
def pipelineCore (blur : Blur) (work : PILImage) (aura : ℚ) (thr : ℕ) : Img3 × ℕ :=
  let gray := grayOf work
  let count := countBright work.width work.height gray thr
  if 0 < aura ∧ 0 < count then
    let enhanced : ℕ → ℕ → ℕ := fun i j =>
      max (gray i j) (toU8 (glowGrid blur work aura thr i j))
    (⟨work.width, work.height, fun i j => (enhanced i j, enhanced i j, enhanced i j)⟩, count)
  else
    (⟨work.width, work.height, fun i j => (gray i j, gray i j, gray i j)⟩, count)

/-- The filter `process_image_with_aura` (lines 36-70) on a decoded image. -/
def process (blur : Blur) (resample : Resample) (img : PILImage) (aura : ℚ) (thr : ℕ) :
    Img3 × ℕ :=
  pipelineCore blur (toWorking resample img) aura thr

/-- Error raised by `Image.open` on an unreadable or corrupt source
(line 38); decoding is the only fallible step of the filter. -/
inductive PilError where
  | decodeError : PilError
deriving DecidableEq

/-- The filter including the fallible decode step `Image.open(image_path)`
(line 38): a decode failure propagates, a decoded image is processed by the
total pipeline. -/
def processFile (blur : Blur) (resample : Resample)
    (decoded : Except PilError PILImage) (aura : ℚ) (thr : ℕ) :
    Except PilError (Img3 × ℕ) :=
  match decoded with
  | Except.error e => Except.error e
  | Except.ok img => Except.ok (process blur resample img aura thr)

/-- Boolean success test for an `Except` value. -/
def exceptOk {ε α : Type} : Except ε α → Bool
  | Except.ok _ => true
  | Except.error _ => false

/-- Loop body of `batch_process_input_folder` (lines 91-98): each per-file
result is attempted in turn; a success is saved, a failure is reported and
the loop continues with the remaining files. -/
def runBatch {α : Type} : List (Except String α) → List α
  | [] => []
  | Except.ok a :: rest => a :: runBatch rest
  | Except.error _ :: rest => runBatch rest

/-- The whole of `batch_process_input_folder` (lines 73-101) over the
per-file outcomes: the saved outputs, and the returned count `len(files)`
(line 101). -/
def batchProcess {α : Type} (results : List (Except String α)) : List α × ℕ :=
  (runBatch results, results.length)

/-- Spec-side composite for claim C2, following the spec words
`output[x,y] = max(L[x,y], round(glow[x,y]))`, clamped to [0,255], where
`glow` is the already scaled glow field `GaussianBlur(mask, sigma) * 255` —
rounding instead of the source's truncation. -/
def enhancedSpec (gray : ℕ) (glowQ : ℚ) : ℕ :=
  min 255 (max gray (Int.toNat (round glowQ)))

/-- Spec-side variant of the pipeline for claim C2: identical to
`pipelineCore` except that the glow composite uses `enhancedSpec`
(round and clamp) in place of the truncating uint8 cast. -/
def pipelineSpec (blur : Blur) (work : PILImage) (aura : ℚ) (thr : ℕ) : Img3 × ℕ :=
  let gray := grayOf work
  let count := countBright work.width work.height gray thr
  if 0 < aura ∧ 0 < count then
    let enhanced : ℕ → ℕ → ℕ := fun i j =>
      enhancedSpec (gray i j) (glowGrid blur work aura thr i j)
    (⟨work.width, work.height, fun i j => (enhanced i j, enhanced i j, enhanced i j)⟩, count)
  else
    (⟨work.width, work.height, fun i j => (gray i j, gray i j, gray i j)⟩, count)

/-- Spec-side filter for claim C2 (rounding composite). -/
def processSpec (blur : Blur) (resample : Resample) (img : PILImage) (aura : ℚ) (thr : ℕ) :
    Img3 × ℕ :=
  pipelineSpec blur (toWorking resample img) aura thr

/-- Trivial blur instance (all zero) for concrete witnesses. -/
def blur0 : Blur := fun _ _ _ _ => 0

/-- Trivial resampling instance (keeps pixel content) for concrete
witnesses. -/
def resample0 : Resample := fun px _ _ => px

/-- Concrete 2-wide, 1-high RGB image: a black pixel at column 0 and a white
pixel at column 1. -/
def img2 : PILImage :=
  ⟨2, 1, Mode.RGB, fun _ j => if j = 0 then ⟨0, 0, 0⟩ else ⟨255, 255, 255⟩⟩

/-- Concrete 220 × 220 all-black RGB image (claim C5 scenario). -/
def blackImg : PILImage := ⟨220, 220, Mode.RGB, fun _ _ => ⟨0, 0, 0⟩⟩

/-- Concrete zero-dimension image (claim C7 scenario). -/
def img00 : PILImage := ⟨0, 0, Mode.RGB, fun _ _ => ⟨0, 0, 0⟩⟩

/-- Concrete palette-mode 1 × 1 image (claim C10 witness). -/
def imgP : PILImage := ⟨1, 1, Mode.P, fun _ _ => ⟨10, 20, 30⟩⟩

/-- Blur instance whose value at column 1 has fractional part 0.5 after
scaling by 255 (7/10 * 255 = 178.5), separating rounding from truncation. -/
def blurCE : Blur := fun _ _ _ j => if j = 0 then 1 else 7 / 10

/-- Concrete 3000 × 1000 RGB image, exercising the downscale guard. -/
def imgBig : PILImage := ⟨3000, 1000, Mode.RGB, fun _ _ => ⟨0, 0, 0⟩⟩

/-! ### Helper lemmas (shared) -/

lemma toU8_le (q : ℚ) : toU8 q ≤ 255 :=
  Nat.le_of_lt_succ (Nat.mod_lt _ (by norm_num))

lemma toWorking_small (resample : Resample) (img : PILImage)
    (hw : img.width ≤ 2000) (hh : img.height ≤ 2000) (hm : img.mode = Mode.RGB) :
    toWorking resample img = img := by
  have ht : thumbnail resample img = img := by
    unfold thumbnail
    rw [if_neg (not_lt.mpr (max_le hw hh))]
  unfold toWorking
  rw [ht, if_neg (by simp [hm])]

lemma thumbnail_mode (resample : Resample) (img : PILImage) :
    (thumbnail resample img).mode = img.mode := by
  unfold thumbnail
  split <;> rfl

lemma thumbnail_dims (resample : Resample) (img : PILImage) :
    (thumbnail resample img).width = (thumbDims img.width img.height).1 ∧
    (thumbnail resample img).height = (thumbDims img.width img.height).2 := by
  by_cases h : 2000 < max img.width img.height <;>
    simp [thumbnail, thumbDims, h]

lemma toWorking_width (resample : Resample) (img : PILImage) :
    (toWorking resample img).width = (thumbDims img.width img.height).1 := by
  simp only [toWorking]
  split
  · exact (thumbnail_dims resample img).1
  · exact (thumbnail_dims resample img).1

lemma toWorking_height (resample : Resample) (img : PILImage) :
    (toWorking resample img).height = (thumbDims img.width img.height).2 := by
  simp only [toWorking]
  split
  · exact (thumbnail_dims resample img).2
  · exact (thumbnail_dims resample img).2

lemma process_snd (blur : Blur) (resample : Resample) (img : PILImage)
    (aura : ℚ) (thr : ℕ) :
    (process blur resample img aura thr).2 =
      countBright (toWorking resample img).width (toWorking resample img).height
        (grayOf (toWorking resample img)) thr := by
  simp only [process, pipelineCore]
  split <;> rfl

lemma process_dims (blur : Blur) (resample : Resample) (img : PILImage)
    (aura : ℚ) (thr : ℕ) :
    (process blur resample img aura thr).1.width = (toWorking resample img).width ∧
    (process blur resample img aura thr).1.height = (toWorking resample img).height := by
  simp only [process, pipelineCore]
  split <;> exact ⟨rfl, rfl⟩

lemma process_px_pos (blur : Blur) (resample : Resample) (img : PILImage)
    (aura : ℚ) (thr : ℕ) (ha : 0 < aura)
    (hc : 0 < countBright (toWorking resample img).width (toWorking resample img).height
      (grayOf (toWorking resample img)) thr) (i j : ℕ) :
    (process blur resample img aura thr).1.px i j =
      (max (grayOf (toWorking resample img) i j)
         (toU8 (glowGrid blur (toWorking resample img) aura thr i j)),
       max (grayOf (toWorking resample img) i j)
         (toU8 (glowGrid blur (toWorking resample img) aura thr i j)),
       max (grayOf (toWorking resample img) i j)
         (toU8 (glowGrid blur (toWorking resample img) aura thr i j))) := by
  simp only [process, pipelineCore]
  rw [if_pos ⟨ha, hc⟩]

lemma process_px_neg (blur : Blur) (resample : Resample) (img : PILImage)
    (aura : ℚ) (thr : ℕ)
    (h : ¬(0 < aura ∧ 0 < countBright (toWorking resample img).width
      (toWorking resample img).height (grayOf (toWorking resample img)) thr)) (i j : ℕ) :
    (process blur resample img aura thr).1.px i j =
      (grayOf (toWorking resample img) i j, grayOf (toWorking resample img) i j,
        grayOf (toWorking resample img) i j) := by
  simp only [process, pipelineCore]
  rw [if_neg h]

lemma processSpec_px_pos (blur : Blur) (resample : Resample) (img : PILImage)
    (aura : ℚ) (thr : ℕ) (ha : 0 < aura)
    (hc : 0 < countBright (toWorking resample img).width (toWorking resample img).height
      (grayOf (toWorking resample img)) thr) (i j : ℕ) :
    (processSpec blur resample img aura thr).1.px i j =
      (enhancedSpec (grayOf (toWorking resample img) i j)
         (glowGrid blur (toWorking resample img) aura thr i j),
       enhancedSpec (grayOf (toWorking resample img) i j)
         (glowGrid blur (toWorking resample img) aura thr i j),
       enhancedSpec (grayOf (toWorking resample img) i j)
         (glowGrid blur (toWorking resample img) aura thr i j)) := by
  simp only [processSpec, pipelineSpec]
  rw [if_pos ⟨ha, hc⟩]

lemma countBright_allBright (w h thr : ℕ) (gray : ℕ → ℕ → ℕ)
    (hb : ∀ i j, thr < gray i j) : countBright w h gray thr = h * w := by
  unfold countBright
  have hrow : ∀ i, ((List.range w).filter (fun j => decide (thr < gray i j))).length = w := by
    intro i
    rw [List.filter_eq_self.mpr fun a _ => decide_eq_true (hb i a)]
    exact List.length_range w
  have hmap : (List.range h).map
      (fun i => ((List.range w).filter (fun j => decide (thr < gray i j))).length) =
      List.replicate h w := by
    refine List.eq_replicate_iff.mpr ⟨by simp, ?_⟩
    intro b hbmem
    obtain ⟨i, _, rfl⟩ := List.mem_map.mp hbmem
    exact hrow i
  rw [hmap, List.sum_replicate, smul_eq_mul]

lemma thumbShort_le (s l : ℕ) (hsl : s ≤ l) (hl : 2000 < l) :
    thumbShort s l ≤ 2000 := by
  unfold thumbShort
  refine max_le (by norm_num) ?_
  have hl0 : 0 < l := by omega
  rw [Nat.div_le_iff_le_mul_add_pred hl0]
  have h1 : s * 2000 ≤ l * 2000 := Nat.mul_le_mul_right 2000 hsl
  omega

lemma grayOf_black (i j : ℕ) : grayOf blackImg i j = 255 := by
  norm_num [grayOf, blackImg, invertPx, invert, grayVal]

/-! ### Claim theorems -/

/-- C1: for every input image (within the size guard and already RGB, so the
working image is the input itself), the returned `bright_pixel_count` equals
the number of pixels whose inverted-then-greyscale luminance strictly exceeds
`white_threshold`, computed before any blur, and is the same for every value
of `aura_size`. -/
theorem bright_count_before_blur (blur : Blur) (resample : Resample) (img : PILImage)
    (aura : ℚ) (thr : ℕ)
    (hw : img.width ≤ 2000) (hh : img.height ≤ 2000) (hm : img.mode = Mode.RGB) :
    (process blur resample img aura thr).2 =
      countBright img.width img.height (fun i j => grayVal (invertPx (img.rgb i j))) thr ∧
    ∀ aura' : ℚ, (process blur resample img aura' thr).2 =
      (process blur resample img aura thr).2 := by
  have hW := toWorking_small resample img hw hh hm
  constructor
  · rw [process_snd, hW]; rfl
  · intro aura'
    rw [process_snd, process_snd]

/-- Witness for C1 at a concrete 2 × 1 image. -/
theorem bright_count_before_blur_witness :
    (process blur0 resample0 img2 1 200).2 =
      countBright img2.width img2.height (fun i j => grayVal (invertPx (img2.rgb i j))) 200 ∧
    ∀ aura' : ℚ, (process blur0 resample0 img2 aura' 200).2 =
      (process blur0 resample0 img2 1 200).2 :=
  bright_count_before_blur blur0 resample0 img2 1 200 (by decide) (by decide) rfl

/-- C2 counterexample: at a concrete 2 × 1 image with one bright pixel and a
blur value of 7/10 at the dark pixel, the source's truncating uint8 cast
gives floor(178.5) = 178 while the spec's rounding composite gives
round(178.5) = 179, so the output pixel differs from the value the claim
asserts. -/
theorem glow_round_counterexample :
    (process blurCE resample0 img2 1 200).1.px 0 1 ≠
      (processSpec blurCE resample0 img2 1 200).1.px 0 1 := by
  have hc : 0 < countBright (toWorking resample0 img2).width (toWorking resample0 img2).height
      (grayOf (toWorking resample0 img2)) 200 := by decide
  rw [process_px_pos blurCE resample0 img2 1 200 (by norm_num) hc 0 1,
    processSpec_px_pos blurCE resample0 img2 1 200 (by norm_num) hc 0 1]
  have hg : grayOf (toWorking resample0 img2) 0 1 = 0 := by decide
  have hq : glowGrid blurCE (toWorking resample0 img2) 1 200 0 1 = (7 / 10 : ℚ) * 255 := rfl
  have h1 : toU8 ((7 / 10 : ℚ) * 255) = 178 := by norm_num [toU8]; decide
  have h2 : enhancedSpec 0 ((7 / 10 : ℚ) * 255) = 179 := by
    norm_num [enhancedSpec, round_eq]
    decide
  rw [hg, hq, h1, h2]
  decide

/-- C2 (amended): when `aura_size > 0` and `bright_pixel_count > 0`, every
output pixel equals the maximum of the greyscale luminance and the glow
value `GaussianBlur(mask, sigma) * 255` truncated to a uint8 (not rounded,
and with no separate clamp), where the mask is the indicator of
luminance > threshold and `sigma^2 = max(0.25, aura^2 * (H*W/48400) * 0.04)`. -/
theorem glow_composite_truncated (blur : Blur) (resample : Resample) (img : PILImage)
    (aura : ℚ) (thr : ℕ) (ha : 0 < aura)
    (hc : 0 < (process blur resample img aura thr).2) :
    ∀ i j, (process blur resample img aura thr).1.px i j =
      (max (grayOf (toWorking resample img) i j)
         (toU8 (glowGrid blur (toWorking resample img) aura thr i j)),
       max (grayOf (toWorking resample img) i j)
         (toU8 (glowGrid blur (toWorking resample img) aura thr i j)),
       max (grayOf (toWorking resample img) i j)
         (toU8 (glowGrid blur (toWorking resample img) aura thr i j))) := by
  rw [process_snd] at hc
  exact fun i j => process_px_pos blur resample img aura thr ha hc i j

/-- Witness for the amended C2 at the dark pixel of a concrete 2 × 1 image. -/
theorem glow_composite_truncated_witness :
    (process blur0 resample0 img2 1 200).1.px 0 1 =
      (max (grayOf (toWorking resample0 img2) 0 1)
         (toU8 (glowGrid blur0 (toWorking resample0 img2) 1 200 0 1)),
       max (grayOf (toWorking resample0 img2) 0 1)
         (toU8 (glowGrid blur0 (toWorking resample0 img2) 1 200 0 1)),
       max (grayOf (toWorking resample0 img2) 0 1)
         (toU8 (glowGrid blur0 (toWorking resample0 img2) 1 200 0 1))) :=
  glow_composite_truncated blur0 resample0 img2 1 200 (by norm_num) (by decide) 0 1

/-- C3: with `aura_size > 0` and at least one bright pixel, every channel of
every output pixel is at least the plain inverted-greyscale value at that
pixel — the glow composite never darkens. -/
theorem glow_never_darkens (blur : Blur) (resample : Resample) (img : PILImage)
    (aura : ℚ) (thr : ℕ) (ha : 0 < aura)
    (hc : 0 < (process blur resample img aura thr).2) :
    ∀ i j,
      grayOf (toWorking resample img) i j ≤
        ((process blur resample img aura thr).1.px i j).1 ∧
      grayOf (toWorking resample img) i j ≤
        ((process blur resample img aura thr).1.px i j).2.1 ∧
      grayOf (toWorking resample img) i j ≤
        ((process blur resample img aura thr).1.px i j).2.2 := by
  rw [process_snd] at hc
  intro i j
  rw [process_px_pos blur resample img aura thr ha hc i j]
  exact ⟨le_max_left _ _, le_max_left _ _, le_max_left _ _⟩

/-- Witness for C3 at the dark pixel of a concrete 2 × 1 image. -/
theorem glow_never_darkens_witness :
    grayOf (toWorking resample0 img2) 0 1 ≤
        ((process blur0 resample0 img2 1 200).1.px 0 1).1 ∧
      grayOf (toWorking resample0 img2) 0 1 ≤
        ((process blur0 resample0 img2 1 200).1.px 0 1).2.1 ∧
      grayOf (toWorking resample0 img2) 0 1 ≤
        ((process blur0 resample0 img2 1 200).1.px 0 1).2.2 :=
  glow_never_darkens blur0 resample0 img2 1 200 (by norm_num) (by decide) 0 1

/-- C4: with `aura_size = 0` the output is the plain inverted-greyscale
image, broadcast to three identical channels, with no glow contribution. -/
theorem aura_zero_plain_greyscale (blur : Blur) (resample : Resample) (img : PILImage)
    (thr : ℕ) :
    ∀ i j, (process blur resample img 0 thr).1.px i j =
      (grayOf (toWorking resample img) i j, grayOf (toWorking resample img) i j,
        grayOf (toWorking resample img) i j) :=
  fun i j => process_px_neg blur resample img 0 thr (fun h => lt_irrefl 0 h.1) i j

/-- C5 counterexample: for the 220 × 220 all-black image with threshold 200,
`bright_pixel_count` is not 0 — inverted black is white, luminance 255 > 200,
so the mask is all-true and the count is 48400. -/
theorem black_count_counterexample :
    (process blur0 resample0 blackImg 15 200).2 ≠ 0 := by
  rw [process_snd,
    toWorking_small resample0 blackImg (by decide) (by decide) rfl,
    countBright_allBright blackImg.width blackImg.height 200 (grayOf blackImg)
      (fun i j => by rw [grayOf_black]; norm_num)]
  norm_num [blackImg]

/-- C5 (amended): for the 220 × 220 all-black image with threshold 200 the
mask is all-true, `bright_pixel_count = 48400 = 220 * 220`, the glow step
runs whenever `aura_size > 0`, and the output image is uniformly 255
(inverted black is white, luminance 255), for every aura and every blur. -/
theorem black_image_all_bright (blur : Blur) (resample : Resample) (aura : ℚ) :
    (process blur resample blackImg aura 200).2 = 48400 ∧
    ∀ i j, (process blur resample blackImg aura 200).1.px i j = (255, 255, 255) := by
  have hW := toWorking_small resample blackImg (by decide) (by decide) rfl
  have hcount : countBright (toWorking resample blackImg).width
      (toWorking resample blackImg).height (grayOf (toWorking resample blackImg)) 200
      = 48400 := by
    rw [hW, countBright_allBright blackImg.width blackImg.height 200 (grayOf blackImg)
      (fun i j => by rw [grayOf_black]; norm_num)]
    norm_num [blackImg]
  constructor
  · rw [process_snd]; exact hcount
  · intro i j
    by_cases hpos : 0 < aura ∧ 0 < countBright (toWorking resample blackImg).width
        (toWorking resample blackImg).height (grayOf (toWorking resample blackImg)) 200
    · rw [process_px_pos blur resample blackImg aura 200 hpos.1 hpos.2 i j, hW, grayOf_black]
      have h255 : ∀ q : ℚ, max 255 (toU8 q) = 255 := fun q => max_eq_left (toU8_le q)
      rw [h255]
    · rw [process_px_neg blur resample blackImg aura 200 hpos i j, hW, grayOf_black]

/-- C6 counterexample: a two-file batch whose first file fails still reports
2 — the number of files found, `len(files)` — not the number 1 of
successfully processed files. -/
theorem batch_count_counterexample :
    (batchProcess [Except.error "decode failure", Except.ok (0 : ℕ)]).2 ≠
      (batchProcess [Except.error "decode failure", Except.ok (0 : ℕ)]).1.length := by
  decide

/-- C6 (amended): per-file failures are caught and the batch continues with
the remaining files — the saved outputs are exactly the successful results,
in order — but the reported count is the number of matching files found
(`len(files)`), not the number of successes. -/
theorem batch_continues_reports_attempted {α : Type} (results : List (Except String α)) :
    (batchProcess results).2 = results.length ∧
    (batchProcess results).1 = results.filterMap (fun r => r.toOption) ∧
    ∀ (e : String) (rest : List (Except String α)),
      (batchProcess (Except.error e :: rest)).1 = (batchProcess rest).1 := by
  have key : ∀ l : List (Except String α), runBatch l = l.filterMap (fun r => r.toOption) := by
    intro l
    induction l with
    | nil => rfl
    | cons head tail ih =>
      cases head with
      | ok a => simp [runBatch, Except.toOption, ih]
      | error e => simp [runBatch, Except.toOption, ih]
  exact ⟨rfl, key results, fun e rest => rfl⟩

/-- C7 counterexample: the filter does not fail on a zero-dimension image —
the source has no dimension guard and no InvalidInputError anywhere; the
0 × 0 image is processed successfully, with `bright_pixel_count = 0`. -/
theorem zero_dim_no_error :
    exceptOk (processFile blur0 resample0 (Except.ok img00) 15 200) = true ∧
    (process blur0 resample0 img00 15 200).2 = 0 := by
  refine ⟨rfl, ?_⟩
  rw [process_snd]
  rfl

/-- C7 (amended): the filter fails exactly when decoding fails (the decode
error propagates unchanged); it performs no dimension validation — any
decoded image, including a zero-dimension one, is processed by the total
pipeline — and the pure filter has no other failure modes. -/
theorem filter_error_surface (blur : Blur) (resample : Resample) (aura : ℚ) (thr : ℕ) :
    (∀ e, processFile blur resample (Except.error e) aura thr = Except.error e) ∧
    (∀ decoded : PILImage,
      exceptOk (processFile blur resample (Except.ok decoded) aura thr) = true) :=
  ⟨fun _ => rfl, fun _ => rfl⟩

/-- C8: the output dimensions equal the input dimensions after the downscale
guard (unchanged when the longer side is at most 2000, otherwise the longer
side becomes 2000 with aspect preserved), and the three channels of every
output pixel are equal. -/
theorem output_dims_and_channels (blur : Blur) (resample : Resample) (img : PILImage)
    (aura : ℚ) (thr : ℕ) :
    (process blur resample img aura thr).1.width = (thumbDims img.width img.height).1 ∧
    (process blur resample img aura thr).1.height = (thumbDims img.width img.height).2 ∧
    (∀ i j, ((process blur resample img aura thr).1.px i j).1 =
        ((process blur resample img aura thr).1.px i j).2.1 ∧
      ((process blur resample img aura thr).1.px i j).2.1 =
        ((process blur resample img aura thr).1.px i j).2.2) ∧
    (max img.width img.height ≤ 2000 →
      thumbDims img.width img.height = (img.width, img.height)) ∧
    (2000 < max img.width img.height →
      max (thumbDims img.width img.height).1 (thumbDims img.width img.height).2 = 2000) := by
  refine ⟨?_, ?_, ?_, ?_, ?_⟩
  · rw [(process_dims blur resample img aura thr).1, toWorking_width]
  · rw [(process_dims blur resample img aura thr).2, toWorking_height]
  · intro i j
    by_cases hpos : 0 < aura ∧ 0 < countBright (toWorking resample img).width
        (toWorking resample img).height (grayOf (toWorking resample img)) thr
    · rw [process_px_pos blur resample img aura thr hpos.1 hpos.2 i j]
      exact ⟨rfl, rfl⟩
    · rw [process_px_neg blur resample img aura thr hpos i j]
      exact ⟨rfl, rfl⟩
  · intro hle
    unfold thumbDims
    rw [if_neg (not_lt.mpr hle)]
  · intro hgt
    unfold thumbDims
    rw [if_pos hgt]
    by_cases hhw : img.height ≤ img.width
    · rw [if_pos hhw]
      have hw2000 : 2000 < img.width := by rwa [max_eq_left hhw] at hgt
      exact max_eq_left (thumbShort_le img.height img.width hhw hw2000)
    · rw [if_neg hhw]
      have hwh : img.width ≤ img.height := le_of_not_le hhw
      have hh2000 : 2000 < img.height := by rwa [max_eq_right hwh] at hgt
      exact max_eq_right (thumbShort_le img.width img.height hwh hh2000)

/-- Witness for C8 at a concrete 3000 × 1000 image, which the guard
downscales to 2000 × 667. -/
theorem output_dims_and_channels_witness :
    (process blur0 resample0 imgBig 15 200).1.width = (thumbDims imgBig.width imgBig.height).1 ∧
    (process blur0 resample0 imgBig 15 200).1.height = (thumbDims imgBig.width imgBig.height).2 ∧
    (∀ i j, ((process blur0 resample0 imgBig 15 200).1.px i j).1 =
        ((process blur0 resample0 imgBig 15 200).1.px i j).2.1 ∧
      ((process blur0 resample0 imgBig 15 200).1.px i j).2.1 =
        ((process blur0 resample0 imgBig 15 200).1.px i j).2.2) ∧
    (max imgBig.width imgBig.height ≤ 2000 →
      thumbDims imgBig.width imgBig.height = (imgBig.width, imgBig.height)) ∧
    (2000 < max imgBig.width imgBig.height →
      max (thumbDims imgBig.width imgBig.height).1 (thumbDims imgBig.width imgBig.height).2
        = 2000) :=
  output_dims_and_channels blur0 resample0 imgBig 15 200

/-- C10: a non-RGB image is not rejected — after the downscale guard it is
converted to RGB and then run through the same core pipeline as RGB inputs. -/
theorem nonRGB_converted_same_pipeline (blur : Blur) (resample : Resample) (img : PILImage)
    (aura : ℚ) (thr : ℕ) (hm : img.mode ≠ Mode.RGB) :
    process blur resample img aura thr =
      pipelineCore blur (convertRGB (thumbnail resample img)) aura thr ∧
    exceptOk (processFile blur resample (Except.ok img) aura thr) = true := by
  constructor
  · simp only [process, toWorking]
    rw [if_pos (by rw [thumbnail_mode]; exact hm)]
  · rfl

/-- Witness for C10 at a concrete 1 × 1 palette-mode image. -/
theorem nonRGB_converted_same_pipeline_witness :
    process blur0 resample0 imgP 1 200 =
      pipelineCore blur0 (convertRGB (thumbnail resample0 imgP)) 1 200 ∧
    exceptOk (processFile blur0 resample0 (Except.ok imgP) 1 200) = true :=
  nonRGB_converted_same_pipeline blur0 resample0 imgP 1 200 (by decide)

end AuraFilter
